import Mathlib

/-!
Shallow embedding of `src/lambda_function.py` (doc-summarizer): an S3-triggered
handler that reads a file, truncates it, summarizes it through Bedrock behind a
retry/backoff wrapper, and indexes the resulting document into OpenSearch.

Python exceptions are modelled by `PyErr`; a computation that can raise is an
`Except PyErr _`.  JSON-shaped values (the trigger event and the parsed Bedrock
response body) are modelled by `JVal`.  External collaborators (S3, Bedrock,
OpenSearch, `os.environ`, `urllib.parse.unquote_plus`) are oracles collected in
`Env`; the i-th invocation of the wrapped Bedrock call returns `bedrockInvoke i`,
and the random jitter drawn at attempt i is the parameter `jitter i`.
Observable side effects (Bedrock call count, index-create calls, index writes)
are threaded out in an `Effects` record.
-/

set_option maxRecDepth 8192

/-- Python exception values as they matter to `lambda_function.py`:
`clientError code msg` is `botocore.exceptions.ClientError` with
`e.response['Error']['Code'] == code`; `keyError`, `indexError` and `typeError`
are the corresponding builtin exceptions; `other` covers every further kind. -/
inductive PyErr where
  | clientError (code : String) (msg : String)
  | keyError (k : String)
  | indexError
  | typeError (msg : String)
  | other (msg : String)
deriving DecidableEq, Repr

/-- `str(e)` as used in the error-path response body.  The exact rendering is
library-defined in Python; only its dependence on the exception matters here.
(The quotes Python puts around a KeyError key are written with \x27.) -/
def pyStr : PyErr → String
  | .clientError code msg => "An error occurred (" ++ code ++ "): " ++ msg
  | .keyError k => "\x27" ++ k ++ "\x27"
  | .indexError => "list index out of range"
  | .typeError msg => msg
  | .other msg => msg

/-- JSON-shaped Python values: the trigger event and the parsed model response. -/
inductive JVal where
  | str (s : String)
  | num (n : Int)
  | bool (b : Bool)
  | null
  | obj (fields : List (String × JVal))
  | arr (items : List JVal)

/-- Python subscripting `v[k]` with a string key: succeeds on a dict that has
the key, raises `KeyError` on a dict without it, `TypeError` otherwise. -/
def JVal.getKey : JVal → String → Except PyErr JVal
  | .obj fields, k =>
    match fields.find? (fun p => p.1 == k) with
    | some p => .ok p.2
    | none => .error (.keyError k)
  | _, k => .error (.typeError ("value is not subscriptable with key " ++ k))

/-- Python subscripting `v[i]` with integer index i ≥ 0: succeeds on a long
enough list (and on a string, yielding the one-character string), raises
`IndexError` when out of range, `KeyError` on a dict without the integer key,
`TypeError` otherwise. -/
def JVal.getIdx : JVal → Nat → Except PyErr JVal
  | .arr items, i =>
    match items[i]? with
    | some v => .ok v
    | none => .error .indexError
  | .str s, i =>
    match s.data[i]? with
    | some c => .ok (.str (String.singleton c))
    | none => .error .indexError
  | .obj _, _ => .error (.keyError "0")
  | _, _ => .error (.typeError "value is not subscriptable")

/-- Require a string value.  Used where the Python code passes the value to an
operation that raises `TypeError` on a non-string (`urllib.parse.unquote_plus`
at line 39; the slice `summary[:50]` at line 79). -/
def JVal.asStr : JVal → Except PyErr String
  | .str s => .ok s
  | _ => .error (.typeError "expected str")

/-- `json.dumps` on a single string: quote and escape.  (Says nothing about
non-ASCII escaping, which no theorem depends on.) -/
def jsonEscapeChar (c : Char) : String :=
  if c = '"' then "\\\""
  else if c = '\\' then "\\\\"
  else if c = '\n' then "\\n"
  else if c = '\t' then "\\t"
  else if c = '\r' then "\\r"
  else String.singleton c

def jsonDumps (s : String) : String :=
  "\"" ++ String.join (s.data.map jsonEscapeChar) ++ "\""

/-! ## retry_with_backoff (lines 14-32) -/

/-- `max_retries` at line 19. -/
def max_retries : Nat := 5

/-- `base_delay` at line 20 (an int in Python; delays are computed in ℚ). -/
def base_delay : ℚ := 2

/-- Observable trace of one `retry_with_backoff` run: final outcome, number of
invocations of the wrapped operation, and the sleep durations in order. -/
structure RetryTrace (α : Type) where
  result : Except PyErr α
  calls : Nat
  delays : List ℚ

/-- Is the exception a `ClientError` whose code is `'ThrottlingException'`
(the condition tested at lines 25-27)? -/
def isThrottling : PyErr → Bool
  | .clientError code _ => code == "ThrottlingException"
  | _ => false

/-- The loop `for attempt in range(max_retries)` of lines 22-32, with `fuel`
remaining iterations (invoked with `attempt = 0`, `fuel = max_retries`, so
`attempt + fuel = max_retries` throughout).  A successful call returns; a
`ClientError` with code `'ThrottlingException'` at `attempt < max_retries - 1`
sleeps `base_delay * 2 ^ attempt + jitter attempt` and retries; every other
exception is re-raised (a non-ClientError propagates out of the `try` with the
same observable trace).  The fuel-0 case is Python's fall-through `return None`,
unreachable for `max_retries = 5` since the last attempt always returns or
raises; it is modelled as a distinguished error. -/
def retryAux (func : Nat → Except PyErr α) (jitter : Nat → ℚ) :
    Nat → Nat → RetryTrace α
  | _, 0 => ⟨.error (.other "unreachable: loop fell through"), 0, []⟩
  | attempt, fuel + 1 =>
    match func attempt with
    | .ok v => ⟨.ok v, 1, []⟩
    | .error e =>
      match e with
      | .clientError code msg =>
        if code = "ThrottlingException" ∧ attempt < max_retries - 1 then
          let d := base_delay * 2 ^ attempt + jitter attempt
          let t := retryAux func jitter (attempt + 1) fuel
          ⟨t.result, t.calls + 1, d :: t.delays⟩
        else ⟨.error (.clientError code msg), 1, []⟩
      | _ => ⟨.error e, 1, []⟩

/-- `retry_with_backoff(func)` (lines 14-32): run the loop from attempt 0. -/
def retry_with_backoff (func : Nat → Except PyErr α) (jitter : Nat → ℚ) :
    RetryTrace α :=
  retryAux func jitter 0 max_retries

/-! ## handler (lines 34-116) -/

/-- `{'statusCode': ..., 'body': ...}` as returned at lines 49, 111, 116. -/
structure HandlerResult where
  statusCode : Nat
  body : String
deriving DecidableEq, Repr

/-- The document built at lines 97-102.  `timestamp` holds whatever string the
code puts there (the literal "2024-01-01" in the source). -/
structure Document where
  filename : String
  content : List Char
  summary : String
  timestamp : String
deriving DecidableEq, Repr

/-- Observable effects of one invocation: how many times the wrapped Bedrock
operation ran, how many index-create calls were issued, and the
`client.index` calls attempted (index name and document). -/
structure Effects where
  bedrockCalls : Nat
  createCalls : Nat
  writes : List (String × Document)
deriving DecidableEq, Repr

/-- External collaborators of one invocation.
`getObject b k` is `s3.get_object` + `.read().decode('utf-8')` (its error case
covers NotFound / AccessDenied / decode failures alike); `bedrockInvoke i` is
the i-th call of `bedrock.invoke_model`, whose `.ok` payload is itself the
`Except` outcome of the subsequent `resp['body'].read()` + `json.loads` (those
two run after the retry wrapper returns, so their failure is not retried);
`jitter i` is the `random.uniform(0, 1)` draw of attempt i; `osHost` is
`os.environ['OPENSEARCH_HOST']`; `indicesExists` / `indicesCreate` /
`indexWrite` are the three OpenSearch calls (the client constructor at lines
85-95 issues no request, so connectivity failures surface at these calls);
`unquote` is `urllib.parse.unquote_plus`. -/
structure Env where
  unquote : String → String
  getObject : JVal → String → Except PyErr (List Char)
  bedrockInvoke : Nat → Except PyErr (Except PyErr JVal)
  jitter : Nat → ℚ
  osHost : Except PyErr String
  indicesExists : String → Except PyErr Bool
  indicesCreate : String → Except PyErr Unit
  indexWrite : String → Document → Except PyErr Unit

/-- Lines 38-39, before the `try`: `bucket = event['Records'][0]['s3']['bucket']['name']`,
then `key = urllib.parse.unquote_plus(event['Records'][0]['s3']['object']['key'])`.
The bucket value is used as-is (no string check in Python); the key must be a
string because `unquote_plus` raises `TypeError` otherwise.  An exception here
escapes the handler uncaught. -/
def extractBucketKey (event : JVal) : Except PyErr (JVal × String) := do
  let records ← event.getKey "Records"
  let r0 ← records.getIdx 0
  let s3v ← r0.getKey "s3"
  let bval ← s3v.getKey "bucket"
  let bucket ← bval.getKey "name"
  let records2 ← event.getKey "Records"
  let r02 ← records2.getIdx 0
  let s3v2 ← r02.getKey "s3"
  let oval ← s3v2.getKey "object"
  let keyv ← oval.getKey "key"
  let rawKey ← keyv.asStr
  .ok (bucket, rawKey)

/-- Lines 53-55: truncate to the first 15000 characters when longer. -/
def prepareContent (file_content : List Char) : List Char :=
  if file_content.length > 15000 then file_content.take 15000 else file_content

/-- Lines 77-78: `resp_body['content'][0]['text']` on the parsed response body
(`asStr` reflects the string use of the result at line 79). -/
def extractSummary (respBody : JVal) : Except PyErr String :=
  match respBody.getKey "content" with
  | .error e => .error e
  | .ok content =>
    match content.getIdx 0 with
    | .error e => .error e
    | .ok first =>
      match first.getKey "text" with
      | .error e => .error e
      | .ok t => t.asStr

/-- The body of the `try` block, lines 44-111, with its observable effects.
An `.error` outcome is an exception reaching the `except` at line 113. -/
def tryBody (env : Env) (bucket : JVal) (key : String) :
    Except PyErr HandlerResult × Effects :=
  match env.getObject bucket key with
  | .error e => (.error e, ⟨0, 0, []⟩)
  | .ok file_content =>
    if file_content.length = 0 then
      (.ok ⟨200, "File is empty"⟩, ⟨0, 0, []⟩)
    else
      match (retry_with_backoff env.bedrockInvoke env.jitter).result with
      | .error e =>
        (.error e, ⟨(retry_with_backoff env.bedrockInvoke env.jitter).calls, 0, []⟩)
      | .ok parsed =>
        match parsed with
        | .error e =>
          (.error e, ⟨(retry_with_backoff env.bedrockInvoke env.jitter).calls, 0, []⟩)
        | .ok respBody =>
          match extractSummary respBody with
          | .error e =>
            (.error e, ⟨(retry_with_backoff env.bedrockInvoke env.jitter).calls, 0, []⟩)
          | .ok summary =>
            match env.osHost with
            | .error e =>
              (.error e, ⟨(retry_with_backoff env.bedrockInvoke env.jitter).calls, 0, []⟩)
            | .ok _host =>
              match env.indicesExists "summaries" with
              | .error e =>
                (.error e, ⟨(retry_with_backoff env.bedrockInvoke env.jitter).calls, 0, []⟩)
              | .ok b =>
                if !b then
                  match env.indicesCreate "summaries" with
                  | .error e =>
                    (.error e, ⟨(retry_with_backoff env.bedrockInvoke env.jitter).calls, 1, []⟩)
                  | .ok _ =>
                    match env.indexWrite "summaries"
                        ⟨key, (prepareContent file_content).take 1000, summary, "2024-01-01"⟩ with
                    | .error e =>
                      (.error e,
                       ⟨(retry_with_backoff env.bedrockInvoke env.jitter).calls, 1,
                        [("summaries",
                          ⟨key, (prepareContent file_content).take 1000, summary, "2024-01-01"⟩)]⟩)
                    | .ok _ =>
                      (.ok ⟨200, jsonDumps "Success"⟩,
                       ⟨(retry_with_backoff env.bedrockInvoke env.jitter).calls, 1,
                        [("summaries",
                          ⟨key, (prepareContent file_content).take 1000, summary, "2024-01-01"⟩)]⟩)
                else
                  match env.indexWrite "summaries"
                      ⟨key, (prepareContent file_content).take 1000, summary, "2024-01-01"⟩ with
                  | .error e =>
                    (.error e,
                     ⟨(retry_with_backoff env.bedrockInvoke env.jitter).calls, 0,
                      [("summaries",
                        ⟨key, (prepareContent file_content).take 1000, summary, "2024-01-01"⟩)]⟩)
                  | .ok _ =>
                    (.ok ⟨200, jsonDumps "Success"⟩,
                     ⟨(retry_with_backoff env.bedrockInvoke env.jitter).calls, 0,
                      [("summaries",
                        ⟨key, (prepareContent file_content).take 1000, summary, "2024-01-01"⟩)]⟩)

/-- `handler(event, context)`, lines 34-116.  Bucket/key extraction runs before
the `try`, so its exception propagates; everything raised inside the `try`
becomes the statusCode-200 error response of line 116. -/
def handler (env : Env) (event : JVal) :
    Except PyErr HandlerResult × Effects :=
  match extractBucketKey event with
  | .error e => (.error e, ⟨0, 0, []⟩)
  | .ok (bucket, rawKey) =>
    match tryBody env bucket (env.unquote rawKey) with
    | (.ok res, eff) => (.ok res, eff)
    | (.error e, eff) =>
      (.ok ⟨200, jsonDumps ("Error: " ++ pyStr e)⟩, eff)

/-! ## Lemmas and claim theorems for the Backoff Controller -/

theorem retryAux_delays_eq (func : Nat → Except PyErr α) (jitter : Nat → ℚ) :
    ∀ fuel attempt, ∃ m,
      (retryAux func jitter attempt fuel).delays =
        (List.range' attempt m).map (fun i => base_delay * 2 ^ i + jitter i) := by
  intro fuel
  induction fuel with
  | zero => intro attempt; exact ⟨0, by simp [retryAux]⟩
  | succ fuel ih =>
    intro attempt
    match hf : func attempt with
    | .ok v => exact ⟨0, by simp [retryAux, hf]⟩
    | .error e =>
      cases e with
      | clientError code msg =>
        by_cases hc : code = "ThrottlingException" ∧ attempt < max_retries - 1
        · obtain ⟨m, hm⟩ := ih (attempt + 1)
          refine ⟨m + 1, ?_⟩
          simp [retryAux, hf, hc, List.range'_succ, hm]
        · exact ⟨0, by simp [retryAux, hf, hc]⟩
      | keyError k => exact ⟨0, by simp [retryAux, hf]⟩
      | indexError => exact ⟨0, by simp [retryAux, hf]⟩
      | typeError m => exact ⟨0, by simp [retryAux, hf]⟩
      | other m => exact ⟨0, by simp [retryAux, hf]⟩

theorem delayFormula_mono (jitter : Nat → ℚ) (hj : ∀ i, 0 ≤ jitter i ∧ jitter i < 1)
    (k : Nat) :
    base_delay * 2 ^ k + jitter k ≤ base_delay * 2 ^ (k + 1) + jitter (k + 1) := by
  have h1 := (hj k).2
  have h2 := (hj (k + 1)).1
  have hp : (1 : ℚ) ≤ 2 ^ k := one_le_pow₀ (by norm_num)
  rw [pow_succ]
  unfold base_delay
  nlinarith

theorem chain'_delay_map (jitter : Nat → ℚ) (hj : ∀ i, 0 ≤ jitter i ∧ jitter i < 1) :
    ∀ (m a : Nat),
      List.Chain' (fun x y => x ≤ y)
        ((List.range' a m).map (fun i => base_delay * 2 ^ i + jitter i)) := by
  intro m
  induction m with
  | zero => intro a; simp
  | succ m ih =>
    intro a
    rw [List.range'_succ, List.map_cons, List.chain'_cons']
    refine ⟨?_, ih (a + 1)⟩
    intro y hy
    cases m with
    | zero => simp at hy
    | succ m =>
      rw [List.range'_succ, List.map_cons] at hy
      simp only [List.head?_cons, Option.mem_def, Option.some.injEq] at hy
      subst hy
      exact delayFormula_mono jitter hj a

/-- Fixture: an operation throttled on every attempt. -/
def throttledFunc : Nat → Except PyErr Nat :=
  fun _ => .error (.clientError "ThrottlingException" "Rate exceeded")

/-- Fixture: an operation whose first call fails with a non-ClientError. -/
def credentialsFunc : Nat → Except PyErr Nat :=
  fun _ => .error (.other "Unable to locate credentials")

/-- Fixture: a jitter draw of one half at every attempt. -/
def halfJitter : Nat → ℚ := fun _ => 1 / 2

/-- C2: for a wrapped operation that fails on every call with a ClientError of
code `'ThrottlingException'` (the rate-limit classification) and 5 attempts,
`retry_with_backoff` invokes the operation exactly 5 times and then propagates
the last rate-limit failure to the caller. -/
theorem retry_all_throttled_five_calls (func : Nat → Except PyErr α)
    (jitter : Nat → ℚ) (msg : Nat → String)
    (h : ∀ i, func i = .error (.clientError "ThrottlingException" (msg i))) :
    (retry_with_backoff func jitter).calls = 5 ∧
    (retry_with_backoff func jitter).result =
      .error (.clientError "ThrottlingException" (msg 4)) := by
  constructor <;> simp [retry_with_backoff, retryAux, max_retries, h]

theorem retry_all_throttled_five_calls_witness :
    (retry_with_backoff throttledFunc halfJitter).calls = 5 ∧
    (retry_with_backoff throttledFunc halfJitter).result =
      .error (.clientError "ThrottlingException" "Rate exceeded") :=
  retry_all_throttled_five_calls throttledFunc halfJitter (fun _ => "Rate exceeded")
    (fun _ => rfl)

/-- C6: a failure not classified as rate-limit (any exception other than a
ClientError with code `'ThrottlingException'`) stops the loop at the attempt
where it occurs, whatever that attempt index is: with the earlier attempts
throttled and attempt i failing non-rate-limit, the operation runs exactly
i + 1 times, no delay is taken for the failing attempt (the delay list stays at
the i delays of the earlier retries; for i = 0, the first call, it is empty),
and the failure propagates.  The claim's case is i = 0: exactly one invocation
and no delay at all. -/
theorem retry_non_throttle_single_call (func : Nat → Except PyErr α)
    (jitter : Nat → ℚ) (i : Nat) (e : PyErr) (msg : Nat → String)
    (hi : i < 5)
    (hprev : ∀ j, j < i → func j = .error (.clientError "ThrottlingException" (msg j)))
    (hfi : func i = .error e)
    (hne : isThrottling e = false) :
    (retry_with_backoff func jitter).result = .error e ∧
    (retry_with_backoff func jitter).calls = i + 1 ∧
    (retry_with_backoff func jitter).delays.length = i := by
  interval_cases i <;> cases e <;>
    simp_all [retry_with_backoff, retryAux, max_retries, isThrottling]

theorem retry_non_throttle_single_call_witness :
    (retry_with_backoff credentialsFunc halfJitter).result =
      .error (.other "Unable to locate credentials") ∧
    (retry_with_backoff credentialsFunc halfJitter).calls = 0 + 1 ∧
    (retry_with_backoff credentialsFunc halfJitter).delays.length = 0 :=
  retry_non_throttle_single_call credentialsFunc halfJitter 0
    (.other "Unable to locate credentials") (fun _ => "") (by norm_num)
    (fun j hj => absurd hj (Nat.not_lt_zero j)) rfl rfl

/-- C7: every delay the controller takes before retrying attempt k + 1 equals
`base_delay * 2 ^ k + jitter k`; with the jitter draws in [0, 1) this makes the
delay sequence bounded below by `base_delay * 2 ^ k` and non-decreasing. -/
theorem retry_delay_formula (func : Nat → Except PyErr α) (jitter : Nat → ℚ)
    (hj : ∀ i, 0 ≤ jitter i ∧ jitter i < 1) :
    (∀ (k : Nat) (d : ℚ),
        (retry_with_backoff func jitter).delays[k]? = some d →
        d = base_delay * 2 ^ k + jitter k ∧ base_delay * 2 ^ k ≤ d) ∧
    List.Chain' (fun x y => x ≤ y) (retry_with_backoff func jitter).delays := by
  obtain ⟨m, hm⟩ := retryAux_delays_eq func jitter max_retries 0
  constructor
  · intro k d hd
    unfold retry_with_backoff at hd
    rw [hm] at hd
    by_cases hk : k < m
    · simp only [List.getElem?_map, List.getElem?_range', hk, if_true,
        Option.map_some', Option.some.injEq, Nat.zero_add, Nat.one_mul] at hd
      subst hd
      exact ⟨rfl, by linarith [(hj k).1]⟩
    · rw [List.getElem?_eq_none (by simp; omega)] at hd
      exact absurd hd (by simp)
  · unfold retry_with_backoff
    rw [hm]
    exact chain'_delay_map jitter hj m 0

theorem retry_delay_formula_witness :
    ((5 : ℚ) / 2 = base_delay * 2 ^ 0 + halfJitter 0 ∧
      base_delay * 2 ^ 0 ≤ (5 : ℚ) / 2) ∧
    List.Chain' (fun x y => x ≤ y)
      (retry_with_backoff throttledFunc halfJitter).delays :=
  ⟨(retry_delay_formula throttledFunc halfJitter
      (fun i => by norm_num [halfJitter])).1 0 (5 / 2)
        (by norm_num [retry_with_backoff, retryAux, max_retries, base_delay,
          throttledFunc, halfJitter]),
   (retry_delay_formula throttledFunc halfJitter
      (fun i => by norm_num [halfJitter])).2⟩

/-! ## Fixtures for witnesses and counterexamples -/

/-- Fixture: a well-formed S3 trigger event for bucket "docs" and key "file.txt". -/
def okEvent : JVal :=
  .obj [("Records", .arr [
    .obj [("s3", .obj [
      ("bucket", .obj [("name", .str "docs")]),
      ("object", .obj [("key", .str "file.txt")])])]])]

/-- Fixture: a well-formed parsed Bedrock response body with one text block. -/
def okRespBody : JVal :=
  .obj [("content", .arr [.obj [("text", .str "A summary")]])]

/-- Fixture: collaborators that all succeed; the object decodes to "Hi" and the
index already exists. -/
def okEnv : Env where
  unquote := id
  getObject := fun _ _ => .ok "Hi".data
  bedrockInvoke := fun _ => .ok (.ok okRespBody)
  jitter := fun _ => 1 / 2
  osHost := .ok "search.example.com"
  indicesExists := fun _ => .ok true
  indicesCreate := fun _ => .ok ()
  indexWrite := fun _ _ => .ok ()

/-- Fixture: like `okEnv` but the fetched object decodes to the empty string. -/
def emptyEnv : Env := { okEnv with getObject := fun _ _ => .ok [] }

/-- Fixture: the error raised by `indices.create` when the index was created
concurrently between the `exists` check and the `create` call. -/
def raceErr : PyErr := .other "RequestError(400, resource_already_exists_exception)"

/-- Fixture: like `okEnv` but the `exists` check reports false and the
subsequent `create` raises `raceErr`. -/
def raceEnv : Env :=
  { okEnv with
    indicesExists := fun _ => .ok false
    indicesCreate := fun _ => .error raceErr }

/-! ## Claim theorems on the handler -/

theorem tryBody_ok_cases (env : Env) (bucket : JVal) (key : String)
    (r : HandlerResult) (eff : Effects)
    (h : tryBody env bucket key = (.ok r, eff)) :
    r = ⟨200, "File is empty"⟩ ∨ r = ⟨200, jsonDumps "Success"⟩ := by
  unfold tryBody at h
  repeat' split at h
  all_goals simp_all

/-- C1: every terminal path of the handler — success, the empty-input
short-circuit, and every caught failure — returns the identical delivery-status
marker `statusCode = 200`, carrying the distinguishing detail (success /
"File is empty" / the error message) only in the body field. -/
theorem handler_uniform_status (env : Env) (event : JVal)
    (r : HandlerResult) (eff : Effects)
    (h : handler env event = (.ok r, eff)) :
    r.statusCode = 200 ∧
    (r.body = "File is empty" ∨ r.body = jsonDumps "Success" ∨
      ∃ m, r.body = jsonDumps ("Error: " ++ m)) := by
  unfold handler at h
  split at h
  · simp at h
  · split at h
    · rename_i res eff' heq
      simp only [Prod.mk.injEq, Except.ok.injEq] at h
      obtain ⟨hr, -⟩ := h
      subst hr
      rcases tryBody_ok_cases env _ _ res eff' heq with h1 | h1 <;> subst h1
      · exact ⟨rfl, Or.inl rfl⟩
      · exact ⟨rfl, Or.inr (Or.inl rfl)⟩
    · rename_i e eff' heq
      simp only [Prod.mk.injEq, Except.ok.injEq] at h
      obtain ⟨hr, -⟩ := h
      subst hr
      exact ⟨rfl, Or.inr (Or.inr ⟨pyStr e, rfl⟩)⟩

theorem handler_uniform_status_witness :
    (⟨200, jsonDumps "Success"⟩ : HandlerResult).statusCode = 200 ∧
    ((⟨200, jsonDumps "Success"⟩ : HandlerResult).body = "File is empty" ∨
     (⟨200, jsonDumps "Success"⟩ : HandlerResult).body = jsonDumps "Success" ∨
      ∃ m, (⟨200, jsonDumps "Success"⟩ : HandlerResult).body =
        jsonDumps ("Error: " ++ m)) :=
  handler_uniform_status okEnv okEvent _ _ (by rfl)

/-- C4: for every decoded input text, if its length exceeds 15000 characters
the prepared content is exactly the first 15000 characters (length 15000);
otherwise the prepared content is the input unchanged. -/
theorem prepare_content_truncation (s : List Char) :
    (15000 < s.length → (prepareContent s).length = 15000) ∧
    (s.length ≤ 15000 → prepareContent s = s) := by
  constructor
  · intro h
    unfold prepareContent
    rw [if_pos (by omega)]
    simp [List.length_take]
    omega
  · intro h
    unfold prepareContent
    rw [if_neg (by omega)]

theorem prepare_content_truncation_witness :
    (prepareContent (List.replicate 15001 'a')).length = 15000 ∧
    prepareContent "Hi".data = "Hi".data :=
  ⟨(prepare_content_truncation (List.replicate 15001 'a')).1
      (by simp only [List.length_replicate]; omega),
   (prepare_content_truncation "Hi".data).2
      (by simp only [List.length_replicate]; decide)⟩

/-- C5: whenever the fetched object decodes to the empty string, the handler
returns the short-circuit outcome "File is empty" with no Bedrock call and no
index write (and no index-create call either). -/
theorem empty_content_short_circuit (env : Env) (event : JVal)
    (bucket : JVal) (rawKey : String)
    (hev : extractBucketKey event = .ok (bucket, rawKey))
    (hobj : env.getObject bucket (env.unquote rawKey) = .ok []) :
    handler env event = (.ok ⟨200, "File is empty"⟩, ⟨0, 0, []⟩) := by
  simp [handler, tryBody, hev, hobj]

theorem empty_content_short_circuit_witness :
    handler emptyEnv okEvent = (.ok ⟨200, "File is empty"⟩, ⟨0, 0, []⟩) :=
  empty_content_short_circuit emptyEnv okEvent (.str "docs") "file.txt" rfl rfl

/-- C10: for every trigger event on which the `Records`/`s3`/`bucket`/`object`
extraction of lines 38-39 raises, the handler propagates that exception
uncaught — it does not return the uniform statusCode-200 acknowledgment —
because the extraction runs before the `try` block. -/
theorem malformed_event_uncaught (env : Env) (event : JVal) (e : PyErr)
    (h : extractBucketKey event = .error e) :
    handler env event = (.error e, ⟨0, 0, []⟩) := by
  simp [handler, h]

theorem malformed_event_uncaught_witness :
    handler okEnv (.obj []) = (.error (.keyError "Records"), ⟨0, 0, []⟩) :=
  malformed_event_uncaught okEnv (.obj []) (.keyError "Records") rfl

/-- C3 counterexample: with the `exists` check returning false and `create`
raising an "already exists" error (concurrent creation), the handler does NOT
proceed to the document write: no write is attempted and the invocation ends
in the error-path response, refuting the claim that the write still proceeds. -/
theorem index_race_counterexample :
    (handler raceEnv okEvent).2.writes = [] ∧
    (handler raceEnv okEvent).1 =
      .ok ⟨200, jsonDumps ("Error: " ++ pyStr raceErr)⟩ :=
  ⟨rfl, rfl⟩

/-- C3 amended: when the index-existence check returns false and the subsequent
create call raises (as in the benign concurrent-creation race), the error
propagates out of the index-writing section: the document write does not
proceed, and the handler converts the failure into the uniform statusCode-200
response carrying the error message. -/
theorem index_race_propagates (env : Env) (event : JVal) (bucket : JVal)
    (rawKey : String) (cs : List Char) (j : JVal) (s host : String) (e : PyErr)
    (hev : extractBucketKey event = .ok (bucket, rawKey))
    (hobj : env.getObject bucket (env.unquote rawKey) = .ok cs)
    (hne : cs ≠ [])
    (hbr : (retry_with_backoff env.bedrockInvoke env.jitter).result = .ok (.ok j))
    (hsum : extractSummary j = .ok s)
    (hhost : env.osHost = .ok host)
    (hex : env.indicesExists "summaries" = .ok false)
    (hcr : env.indicesCreate "summaries" = .error e) :
    handler env event =
      (.ok ⟨200, jsonDumps ("Error: " ++ pyStr e)⟩,
       ⟨(retry_with_backoff env.bedrockInvoke env.jitter).calls, 1, []⟩) := by
  simp [handler, tryBody, hev, hobj, hne, hbr, hsum, hhost, hex, hcr,
    List.length_eq_zero]

theorem index_race_propagates_witness :
    handler raceEnv okEvent =
      (.ok ⟨200, jsonDumps ("Error: " ++ pyStr raceErr)⟩,
       ⟨(retry_with_backoff raceEnv.bedrockInvoke raceEnv.jitter).calls, 1, []⟩) :=
  index_race_propagates raceEnv okEvent (.str "docs") "file.txt" "Hi".data
    okRespBody "A summary" "search.example.com" raceErr rfl rfl (by decide) rfl rfl
    rfl rfl rfl

/-- C8: on the success path the document written to the index has
filename = the decoded object key, content = the first 1000 characters of the
prepared (truncated) content, and summary = the extracted SummaryResult — but
its timestamp is the string literal "2024-01-01" of line 101, fixed
independently of the invocation, not the capture time the claim states. -/
theorem written_document_fields (env : Env) (event : JVal) (bucket : JVal)
    (rawKey : String) (cs : List Char) (j : JVal) (s host : String)
    (hev : extractBucketKey event = .ok (bucket, rawKey))
    (hobj : env.getObject bucket (env.unquote rawKey) = .ok cs)
    (hne : cs ≠ [])
    (hbr : (retry_with_backoff env.bedrockInvoke env.jitter).result = .ok (.ok j))
    (hsum : extractSummary j = .ok s)
    (hhost : env.osHost = .ok host)
    (hex : env.indicesExists "summaries" = .ok true)
    (hwr : env.indexWrite "summaries"
      ⟨env.unquote rawKey, (prepareContent cs).take 1000, s, "2024-01-01"⟩ = .ok ()) :
    handler env event =
      (.ok ⟨200, jsonDumps "Success"⟩,
       ⟨(retry_with_backoff env.bedrockInvoke env.jitter).calls, 0,
        [("summaries",
          ⟨env.unquote rawKey, (prepareContent cs).take 1000, s, "2024-01-01"⟩)]⟩) := by
  simp [handler, tryBody, hev, hobj, hne, hbr, hsum, hhost, hex, hwr,
    List.length_eq_zero]

theorem written_document_fields_witness :
    handler okEnv okEvent =
      (.ok ⟨200, jsonDumps "Success"⟩,
       ⟨(retry_with_backoff okEnv.bedrockInvoke okEnv.jitter).calls, 0,
        [("summaries",
          ⟨okEnv.unquote "file.txt", (prepareContent "Hi".data).take 1000,
           "A summary", "2024-01-01"⟩)]⟩) :=
  written_document_fields okEnv okEvent (.str "docs") "file.txt" "Hi".data
    okRespBody "A summary" "search.example.com" rfl rfl (by decide) rfl rfl rfl
    rfl rfl

/-! ## Claim theorems on the Summarization Client extraction -/

/-- The spec's MalformedResponse failure kind (its section 7), as a predicate on
the Python exceptions the summary extraction can raise: KeyError, IndexError
and TypeError are the exceptions that signal the expected response structure
(a non-empty content list whose first block has a text field) is absent. -/
def isMalformedResponse : PyErr → Bool
  | .keyError _ => true
  | .indexError => true
  | .typeError _ => true
  | _ => false

theorem getKey_error_malformed (v : JVal) (k : String) (e : PyErr)
    (h : v.getKey k = .error e) : isMalformedResponse e = true := by
  cases v <;> simp only [JVal.getKey] at h
  case obj fields =>
    rcases hf : fields.find? (fun p => p.1 == k) with _ | p <;>
      simp [hf] at h
    subst h; rfl
  all_goals (simp at h; subst h; rfl)

theorem getIdx_error_malformed (v : JVal) (i : Nat) (e : PyErr)
    (h : v.getIdx i = .error e) : isMalformedResponse e = true := by
  cases v <;> simp only [JVal.getIdx] at h
  case arr items =>
    rcases hf : items[i]? with _ | v <;> simp [hf] at h
    subst h; rfl
  case str s =>
    rcases hf : s.data[i]? with _ | c <;> simp [hf] at h
    subst h; rfl
  all_goals (simp at h; subst h; rfl)

theorem asStr_error_malformed (v : JVal) (e : PyErr)
    (h : v.asStr = .error e) : isMalformedResponse e = true := by
  cases v <;> simp only [JVal.asStr] at h <;>
    first
    | (simp at h; subst h; rfl)
    | simp at h

/-- C9: when the parsed model response has a non-empty content list whose first
block carries a text string, the extraction returns exactly that string; and
whenever the extraction fails, the failure is of the MalformedResponse kind
(a structure-absence exception), never a rate-limit one. -/
theorem extract_summary_first_block :
    (∀ (j b : JVal) (rest : List JVal) (s : String),
        j.getKey "content" = .ok (.arr (b :: rest)) →
        b.getKey "text" = .ok (.str s) →
        extractSummary j = .ok s) ∧
    (∀ (j : JVal) (e : PyErr),
        extractSummary j = .error e → isMalformedResponse e = true) := by
  constructor
  · intro j b rest s h1 h2
    simp [extractSummary, h1, h2, JVal.getIdx, JVal.asStr]
  · intro j e h
    unfold extractSummary at h
    rcases hc : j.getKey "content" with ec | content <;> simp only [hc] at h
    · simp at h
      subst h
      exact getKey_error_malformed j "content" _ hc
    · rcases hi : content.getIdx 0 with ei | first <;> simp only [hi] at h
      · simp at h
        subst h
        exact getIdx_error_malformed content 0 _ hi
      · rcases hk : first.getKey "text" with ek | t <;> simp only [hk] at h
        · simp at h
          subst h
          exact getKey_error_malformed first "text" _ hk
        · exact asStr_error_malformed t e h

theorem extract_summary_first_block_witness :
    extractSummary okRespBody = .ok "A summary" ∧
    isMalformedResponse (.keyError "content") = true :=
  ⟨extract_summary_first_block.1 okRespBody (.obj [("text", .str "A summary")])
      [] "A summary" rfl rfl,
   extract_summary_first_block.2 (.obj []) (.keyError "content") rfl⟩
